import Mathlib

set_option autoImplicit false

/-!
Shallow embedding of the `provider` package of
aliyun-sls/opentelemetry-go-provider-sls (the current revision, built on
the OpenTelemetry v1.19 SDK: `otlptracegrpc`, `otlpmetricgrpc`,
`stdouttrace`, `stdoutmetric`).

Go strings become Lean `String`, Go `error` becomes `Option GoErr`
(`none` = nil error), nilable pointers and maps become `Option`, and the
calls into the external OpenTelemetry / gRPC libraries are modelled as
oracles collected in a `World` record: each library constructor is a
field of `World` giving its outcome, while everything the repository
itself computes (branching, header maps, validation, the stop-callback
list) is embedded faithfully.
-/

namespace SlsProvider

/-- A Go `error` value, identified by its message. -/
abbrev GoErr := String

/-- Go `strings.Contains s sub`. -/
def strContains (s sub : String) : Bool :=
  decide (List.IsInfix sub.data s.data)

/-- Go `strings.ContainsAny s chars`: some code point of `chars` occurs in `s`. -/
def strContainsAny (s chars : String) : Bool :=
  s.data.any (fun ch => chars.data.contains ch)

/-- The substring that marks an SLS endpoint in `IsValid`. -/
def slsEndpointMark : String := "log.aliyuncs.com"

/-- The set of placeholder characters rejected by `IsValid` (Go string literal holding a dollar sign and both curly braces). -/
def invalidChars : String := "$\x7b\x7d"

/-- An `sdk/resource.Resource` value: a schema URL plus attribute key-values
(`resource.NewWithAttributes`).  Results of `resource.Merge` are produced by
the `World` oracle, so no merge constructor is needed. -/
inductive Res where
  | ofAttrs (schemaUrl : String) (attrs : List (String × String))
  deriving DecidableEq, Repr

/-- A trace `SpanExporter` as built by `initOtelExporter`: either the
`stdouttrace` exporter or the gRPC OTLP exporter with its configuration. -/
inductive TraceExporter where
  | stdout
  | grpc (endpoint : String) (insecure : Bool) (headers : List (String × String))
  deriving DecidableEq, Repr

/-- A `metric.Exporter` as built by `initOtelExporter`. -/
inductive MetricExporter where
  | stdout
  | grpc (endpoint : String) (insecure : Bool) (headers : List (String × String))
  deriving DecidableEq, Repr

/-- The tracer provider built by `initTracer`:
`sdktrace.NewTracerProvider(WithBatcher(traceExporter), WithIDGenerator(config.IDGenerator), WithResource(c.Resource))`. -/
structure TracerProvider where
  exporter : TraceExporter
  idGen : Option Nat
  res : Option Res
  deriving DecidableEq, Repr

/-- The meter provider built by `initMetric`:
a periodic reader over the metric exporter with the parsed interval, plus the resource. -/
structure MeterProvider where
  intervalNanos : Nat
  exporter : MetricExporter
  res : Option Res
  deriving DecidableEq, Repr

/-- A callback appended to `c.stop`.  `initTracer` appends a closure that
shuts down the tracer provider and then calls the exporter-stop closure of
the first `initOtelExporter` call; `initMetric` appends one that shuts down
the meter provider and then calls the exporter-stop closure of the second
call.  Each exporter-stop closure shuts down the trace exporter of its own
call when that exporter is non-nil, so the callback is determined by the
provider and that captured trace exporter. -/
inductive StopFn where
  | tracer (tp : TracerProvider) (capturedTraceExporter : Option TraceExporter)
  | metric (mp : MeterProvider) (capturedTraceExporter : Option TraceExporter)
  deriving DecidableEq, Repr

/-- The `Config` struct.  Public fields keep their Go names; `IDGenerator`,
`errorHandler` and the generator inside options are identified by a `Nat`
tag since the repository only stores and passes them through. -/
structure Config where
  TraceExporterEndpoint : String
  TraceExporterEndpointInsecure : Bool
  MetricExporterEndpoint : String
  MetricExporterEndpointInsecure : Bool
  MetricReportingPeriod : String
  ServiceName : String
  ServiceNamespace : String
  ServiceVersion : String
  Project : String
  InstanceID : String
  AccessKeyID : String
  AccessKeySecret : String
  AttributesEnvKeys : String
  IDGenerator : Option Nat
  Resource : Option Res
  resourceAttributes : Option (List (String × String))
  errorHandler : Option Nat
  stop : List StopFn
  deriving DecidableEq, Repr

/-- `Config.IsValid`: `none` models a nil error. -/
def Config.IsValid (c : Config) : Option GoErr :=
  if c.ServiceName = "" then
    some "empty service name"
  else if c.ServiceVersion = "" then
    some "empty service version"
  else if (strContains c.TraceExporterEndpoint slsEndpointMark && c.TraceExporterEndpointInsecure)
      || (strContains c.MetricExporterEndpoint slsEndpointMark && c.MetricExporterEndpointInsecure) then
    some "insecure grpc is not allowed when send data to sls directly"
  else if strContains c.TraceExporterEndpoint slsEndpointMark
      || strContains c.MetricExporterEndpoint slsEndpointMark then
    if c.Project = "" || c.InstanceID = "" || c.AccessKeyID = "" || c.AccessKeySecret = "" then
      some "empty project, instanceID, accessKeyID or accessKeySecret when send data to sls directly"
    else if strContainsAny c.Project invalidChars
        || strContainsAny c.InstanceID invalidChars
        || strContainsAny c.AccessKeyID invalidChars
        || strContainsAny c.AccessKeySecret invalidChars then
      some "invalid project, instanceID, accessKeyID or accessKeySecret when send data to sls directly, you should replace these parameters with actual values"
    else
      none
  else
    none

/-! ### The SLS credential headers (`const` block of provider.go) -/

def slsProjectHeader : String := "x-sls-otel-project"

def slsInstanceIDHeader : String := "x-sls-otel-instance-id"

def slsAccessKeyIDHeader : String := "x-sls-otel-ak-id"

def slsAccessKeySecretHeader : String := "x-sls-otel-ak-secret"

/-- Outcomes of the calls into the external OpenTelemetry, contrib and
standard libraries.  Constructors that take arguments in the source are
functions of those arguments, so a single `World` fixes a deterministic
behaviour for each library call.  `none` in an `Option GoErr` field means
the call succeeds. -/
structure World where
  stdouttraceNew : Option GoErr
  stdoutmetricNew : Option GoErr
  otlptraceNew : String → Bool → List (String × String) → Option GoErr
  otlpmetricgrpcNew : String → Bool → List (String × String) → Option GoErr
  hostStart : Option GoErr
  runtimeStart : Option GoErr
  parseDuration : String → Option Nat
  mergeResources : Option Res → Option Res → Option Res × Option GoErr
  getenv : String → String
  hostname : String
  pid : Nat
  command : String
  envResource : Option Res

/-- The header map built inside the gRPC branch of `initOtelExporter`:
the four SLS credential headers when both `Project` and `InstanceID` are
non-empty, otherwise the empty map. -/
def Config.slsHeaders (c : Config) : List (String × String) :=
  if c.Project ≠ "" ∧ c.InstanceID ≠ "" then
    [(slsProjectHeader, c.Project),
     (slsInstanceIDHeader, c.InstanceID),
     (slsAccessKeyIDHeader, c.AccessKeyID),
     (slsAccessKeySecretHeader, c.AccessKeySecret)]
  else
    []

/-- `Config.initOtelExporter`.  The returned `exporterStop` closure is a
fixed closure over the call's own trace exporter and carries no further
information, so the result is the pair of exporters (or an error).

Faithful detail: in the source, the error of `stdoutmetric.New` and of
`otlpmetricgrpc.New` is assigned to `err` but never checked — the final
statement is `return traceExporter, metricsExporter, exporterStop, nil` —
so a failing metric-exporter constructor yields a nil metric exporter
together with a nil error. -/
def Config.initOtelExporter (c : Config) (w : World) (otlpEndpoint : String)
    (insecure : Bool) : Except GoErr (Option TraceExporter × Option MetricExporter) :=
  if otlpEndpoint = "stdout" then
    match w.stdouttraceNew with
    | some e => .error e
    | none =>
      match w.stdoutmetricNew with
      | some _ => .ok (some .stdout, none)
      | none => .ok (some .stdout, some .stdout)
  else if otlpEndpoint ≠ "" then
    let headers := c.slsHeaders
    match w.otlptraceNew otlpEndpoint insecure headers with
    | some e => .error e
    | none =>
      match w.otlpmetricgrpcNew otlpEndpoint insecure headers with
      | some _ => .ok (some (.grpc otlpEndpoint insecure headers), none)
      | none =>
          .ok (some (.grpc otlpEndpoint insecure headers),
               some (.grpc otlpEndpoint insecure headers))
  else
    .ok (none, none)

/-- The mutable package-level globals written by `otel.SetErrorHandler`,
`otel.SetTracerProvider`, `otel.SetTextMapPropagator` and
`global.SetMeterProvider`. -/
inductive Propagator where
  | compositeTraceContextBaggage
  deriving DecidableEq, Repr

structure Globals where
  errorHandler : Option Nat
  tracerProvider : Option TracerProvider
  meterProvider : Option MeterProvider
  propagator : Option Propagator
  deriving DecidableEq, Repr

/-- `Config.initTracer`.  `stopExp` is the trace exporter captured by the
`stop` closure handed in by `Start` (the exporter of the first
`initOtelExporter` call).  The source always returns a nil error. -/
def Config.initTracer (c : Config) (traceExporter : Option TraceExporter)
    (stopExp : Option TraceExporter) (g : Globals) : Config × Globals :=
  match traceExporter with
  | none => (c, g)
  | some texp =>
    let tp : TracerProvider := ⟨texp, c.IDGenerator, c.Resource⟩
    let g1 := { g with tracerProvider := some tp,
                       propagator := some .compositeTraceContextBaggage }
    ({ c with stop := c.stop ++ [.tracer tp stopExp] }, g1)

/-- Thirty seconds in nanoseconds, the fallback when
`time.ParseDuration(c.MetricReportingPeriod)` fails. -/
def thirtySecondsNanos : Nat := 30000000000

/-- `Config.initMetric`.  `stopExp` is the trace exporter captured by the
`stop` closure handed in by `Start` (the exporter of the second
`initOtelExporter` call).  A `host.Start` error returns before the stop
callback is appended; a `runtime.Start` error is returned after the
append. -/
def Config.initMetric (c : Config) (w : World) (metricsExporter : Option MetricExporter)
    (stopExp : Option TraceExporter) (g : Globals) : Config × Globals × Option GoErr :=
  match metricsExporter with
  | none => (c, g, none)
  | some mexp =>
    let period := (w.parseDuration c.MetricReportingPeriod).getD thirtySecondsNanos
    let mp : MeterProvider := ⟨period, mexp, c.Resource⟩
    let g1 := { g with meterProvider := some mp }
    match w.hostStart with
    | some e => (c, g1, some e)
    | none =>
      ({ c with stop := c.stop ++ [.metric mp stopExp] }, g1, w.runtimeStart)

/-- The first statement of `Start`: `otel.SetErrorHandler(c.errorHandler)`
when `c.errorHandler` is non-nil. -/
def setErrorHandlerStep (c : Config) (g : Globals) : Globals :=
  match c.errorHandler with
  | some h => { g with errorHandler := some h }
  | none => g

/-- `Start`: sets the error handler when configured, builds the trace and
metric exporters from the two endpoints, then runs `initTracer` and
`initMetric`. -/
def Start (c : Config) (w : World) (g : Globals) : Config × Globals × Option GoErr :=
  let g0 := setErrorHandlerStep c g
  match c.initOtelExporter w c.TraceExporterEndpoint c.TraceExporterEndpointInsecure with
  | .error e => (c, g0, some e)
  | .ok (traceExporter, _) =>
    match c.initOtelExporter w c.MetricExporterEndpoint c.MetricExporterEndpointInsecure with
    | .error e => (c, g0, some e)
    | .ok (traceExporter2, metricExporter) =>
      let p := c.initTracer traceExporter traceExporter g0
      p.1.initMetric w metricExporter traceExporter2 p.2

/-- `Shutdown` runs each callback of `c.stop` in order; it is modelled by
the sequence of callbacks it invokes. -/
def Shutdown (c : Config) : List StopFn := c.stop

/-- Recognizer for the callback appended by `initMetric`. -/
def StopFn.isMetricCallback : StopFn → Bool
  | .metric _ _ => true
  | _ => false

/-- Recognizer for the callback appended by `initTracer`. -/
def StopFn.isTracerCallback : StopFn → Bool
  | .tracer _ _ => true
  | _ => false

/-! ### `NewConfig` pipeline -/

/-- The values `envconfig.Process` assigns to the env-tagged fields of
`Config` (everything else keeps its zero value). -/
structure EnvVals where
  TraceExporterEndpoint : String
  TraceExporterEndpointInsecure : Bool
  MetricExporterEndpoint : String
  MetricExporterEndpointInsecure : Bool
  MetricReportingPeriod : String
  ServiceName : String
  ServiceNamespace : String
  ServiceVersion : String
  Project : String
  InstanceID : String
  AccessKeyID : String
  AccessKeySecret : String
  AttributesEnvKeys : String
  deriving DecidableEq, Repr

/-- The `Config` right after `envconfig.Process` on the zero value
`var c Config`: tagged fields from the environment, the untagged pointer,
map and slice fields nil. -/
def mkInitConfig (v : EnvVals) : Config :=
  { TraceExporterEndpoint := v.TraceExporterEndpoint
    TraceExporterEndpointInsecure := v.TraceExporterEndpointInsecure
    MetricExporterEndpoint := v.MetricExporterEndpoint
    MetricExporterEndpointInsecure := v.MetricExporterEndpointInsecure
    MetricReportingPeriod := v.MetricReportingPeriod
    ServiceName := v.ServiceName
    ServiceNamespace := v.ServiceNamespace
    ServiceVersion := v.ServiceVersion
    Project := v.Project
    InstanceID := v.InstanceID
    AccessKeyID := v.AccessKeyID
    AccessKeySecret := v.AccessKeySecret
    AttributesEnvKeys := v.AttributesEnvKeys
    IDGenerator := none
    Resource := none
    resourceAttributes := none
    errorHandler := none
    stop := [] }

/-- The functional options (`Option func(*Config)` in the source).
`withIDGenerator` carries an optional generator because the source only
assigns it when the argument is non-nil. -/
inductive Opt where
  | withMetricExporterEndpoint (url : String)
  | withTraceExporterEndpoint (url : String)
  | withServiceName (name : String)
  | withServiceNamespace (nspace : String)
  | withServiceVersion (version : String)
  | withTraceExporterInsecure (insecure : Bool)
  | withMetricExporterInsecure (insecure : Bool)
  | withResourceAttributes (attributes : Option (List (String × String)))
  | withResource (res : Option Res)
  | withErrorHandler (handler : Option Nat)
  | withMetricReportingPeriod (p : String)
  | withSLSConfig (project instanceID accessKeyID accessKeySecret : String)
  | withIDGenerator (generator : Option Nat)
  deriving DecidableEq, Repr

/-- Running one option on the config. -/
def Opt.apply (o : Opt) (c : Config) : Config :=
  match o with
  | .withMetricExporterEndpoint url => { c with MetricExporterEndpoint := url }
  | .withTraceExporterEndpoint url => { c with TraceExporterEndpoint := url }
  | .withServiceName name => { c with ServiceName := name }
  | .withServiceNamespace nspace => { c with ServiceNamespace := nspace }
  | .withServiceVersion version => { c with ServiceVersion := version }
  | .withTraceExporterInsecure insecure => { c with TraceExporterEndpointInsecure := insecure }
  | .withMetricExporterInsecure insecure => { c with MetricExporterEndpointInsecure := insecure }
  | .withResourceAttributes attributes => { c with resourceAttributes := attributes }
  | .withResource res => { c with Resource := res }
  | .withErrorHandler handler => { c with errorHandler := handler }
  | .withMetricReportingPeriod p => { c with MetricReportingPeriod := p }
  | .withSLSConfig project instanceID accessKeyID accessKeySecret =>
      { c with Project := project, InstanceID := instanceID,
               AccessKeyID := accessKeyID, AccessKeySecret := accessKeySecret }
  | .withIDGenerator generator =>
      match generator with
      | some g0 => { c with IDGenerator := some g0 }
      | none => c

/-- `for _, opt := range opts { opt(&c) }`. -/
def applyOpts (opts : List Opt) (c : Config) : Config :=
  opts.foldl (fun c o => o.apply c) c

/-- Go map assignment `m[key] = value` on the association-list model. -/
def mapInsert (m : List (String × String)) (key value : String) :
    List (String × String) :=
  if m.any (fun kv => kv.1 = key) then
    m.map (fun kv => if kv.1 = key then (key, value) else kv)
  else
    m ++ [(key, value)]

/-- Go `strings.Split` on a single-character separator (the source splits
on the literal pipe character), by structural recursion on the rune list. -/
def splitChar (sep : Char) : List Char → List (List Char)
  | [] => [[]]
  | c :: cs =>
    match splitChar sep cs with
    | [] => [[]]
    | acc :: rest => if c = sep then [] :: acc :: rest else (c :: acc) :: rest

/-- `strings.Split(s, pipe)` as a list of strings. -/
def goSplitPipe (s : String) : List String :=
  (splitChar (Char.ofNat 124) s.data).map (fun l => String.mk l)

/-- Dropping leading whitespace runes. -/
def dropSpaces : List Char → List Char
  | [] => []
  | c :: cs => if c.isWhitespace then dropSpaces cs else c :: cs

/-- Go `strings.TrimSpace`. -/
def goTrimSpace (s : String) : String :=
  String.mk ((dropSpaces (dropSpaces s.data).reverse).reverse)

/-- The loop body of `parseEnvKeys` over the split keys.  Writing to the
`resourceAttributes` map while it is nil is a Go runtime panic, modelled
by `none`. -/
def parseEnvKeysGo (getenv : String → String) : List String → Config → Option Config
  | [], c => some c
  | key :: rest, c =>
    let key1 := goTrimSpace key
    let value := getenv key1
    if value = "" then
      parseEnvKeysGo getenv rest c
    else
      match c.resourceAttributes with
      | none => none
      | some m =>
          parseEnvKeysGo getenv rest { c with resourceAttributes := some (mapInsert m key1 value) }

/-- `parseEnvKeys`: `none` models the nil-map panic. -/
def parseEnvKeys (getenv : String → String) (c : Config) : Option Config :=
  if c.AttributesEnvKeys = "" then some c
  else parseEnvKeysGo getenv (goSplitPipe c.AttributesEnvKeys) c

/-- The schema URL of `semconv` v1.17.0 used by `getDefaultResource` and
`mergeResource`. -/
def schemaURL : String := "https://opentelemetry.io/schemas/1.17.0"

/-- `getDefaultResource`. -/
def getDefaultResource (w : World) (c : Config) : Res :=
  .ofAttrs schemaURL
    [("service.name", c.ServiceName),
     ("host.name", w.hostname),
     ("service.namespace", c.ServiceNamespace),
     ("service.version", c.ServiceVersion),
     ("process.pid", toString w.pid),
     ("process.command", w.command)]

/-- `mergeResource`: three `resource.Merge` steps, each assigning
`c.Resource` before checking the error and returning early on failure. -/
def mergeResource (w : World) (c : Config) : Config × Option GoErr :=
  match w.mergeResources (some (getDefaultResource w c)) c.Resource with
  | (r1, some e) => ({ c with Resource := r1 }, some e)
  | (r1, none) =>
    match w.mergeResources r1 w.envResource with
    | (r2, some e) => ({ c with Resource := r2 }, some e)
    | (r2, none) =>
      match w.mergeResources r2 (some (Res.ofAttrs schemaURL (c.resourceAttributes.getD []))) with
      | (r3, e3) => ({ c with Resource := r3 }, e3)

/-- Result of `NewConfig`: either a runtime panic (from `parseEnvKeys`) or
the returned `(*Config, error)` pair. -/
inductive NCResult where
  | panicked
  | returned (cfg : Option Config) (err : Option GoErr)
  deriving DecidableEq, Repr

/-- `NewConfig`.  The error returned by `mergeResource` is discarded by the
source (`mergeResource(&c)` as a bare statement). -/
def NewConfig (w : World) (envResult : Except GoErr EnvVals) (opts : List Opt) : NCResult :=
  match envResult with
  | .error e => .returned none (some e)
  | .ok v =>
    let c := applyOpts opts (mkInitConfig v)
    match parseEnvKeys w.getenv c with
    | none => .panicked
    | some c1 =>
      let c2 := (mergeResource w c1).1
      .returned (some c2) c2.IsValid

/-! ### Apparatus for stating the option-precedence claim -/

/-- The fields of `Config` that the pipeline manipulates (`stop` excluded:
no option or pipeline stage before `Start` writes it). -/
inductive Field where
  | traceExporterEndpoint
  | traceExporterEndpointInsecure
  | metricExporterEndpoint
  | metricExporterEndpointInsecure
  | metricReportingPeriod
  | serviceName
  | serviceNamespace
  | serviceVersion
  | project
  | instanceID
  | accessKeyID
  | accessKeySecret
  | attributesEnvKeys
  | idGenerator
  | resource
  | resourceAttributes
  | errorHandler
  deriving DecidableEq, Repr

/-- A field value, tagged by type. -/
inductive FVal where
  | str (s : String)
  | flag (b : Bool)
  | idg (g : Option Nat)
  | res (r : Option Res)
  | attrs (m : Option (List (String × String)))
  | handler (h : Option Nat)
  deriving DecidableEq, Repr

/-- Reading one field of a `Config`. -/
def Field.get (f : Field) (c : Config) : FVal :=
  match f with
  | .traceExporterEndpoint => .str c.TraceExporterEndpoint
  | .traceExporterEndpointInsecure => .flag c.TraceExporterEndpointInsecure
  | .metricExporterEndpoint => .str c.MetricExporterEndpoint
  | .metricExporterEndpointInsecure => .flag c.MetricExporterEndpointInsecure
  | .metricReportingPeriod => .str c.MetricReportingPeriod
  | .serviceName => .str c.ServiceName
  | .serviceNamespace => .str c.ServiceNamespace
  | .serviceVersion => .str c.ServiceVersion
  | .project => .str c.Project
  | .instanceID => .str c.InstanceID
  | .accessKeyID => .str c.AccessKeyID
  | .accessKeySecret => .str c.AccessKeySecret
  | .attributesEnvKeys => .str c.AttributesEnvKeys
  | .idGenerator => .idg c.IDGenerator
  | .resource => .res c.Resource
  | .resourceAttributes => .attrs c.resourceAttributes
  | .errorHandler => .handler c.errorHandler

/-- Whether the option writes the field when run (`withIDGenerator` only
writes when its argument is non-nil). -/
def Opt.writes (o : Opt) (f : Field) : Bool :=
  match o, f with
  | .withMetricExporterEndpoint _, .metricExporterEndpoint => true
  | .withTraceExporterEndpoint _, .traceExporterEndpoint => true
  | .withServiceName _, .serviceName => true
  | .withServiceNamespace _, .serviceNamespace => true
  | .withServiceVersion _, .serviceVersion => true
  | .withTraceExporterInsecure _, .traceExporterEndpointInsecure => true
  | .withMetricExporterInsecure _, .metricExporterEndpointInsecure => true
  | .withResourceAttributes _, .resourceAttributes => true
  | .withResource _, .resource => true
  | .withErrorHandler _, .errorHandler => true
  | .withMetricReportingPeriod _, .metricReportingPeriod => true
  | .withSLSConfig _ _ _ _, .project => true
  | .withSLSConfig _ _ _ _, .instanceID => true
  | .withSLSConfig _ _ _ _, .accessKeyID => true
  | .withSLSConfig _ _ _ _, .accessKeySecret => true
  | .withIDGenerator g, .idGenerator => g.isSome
  | _, _ => false

/-- The value the option writes into the field (junk when it does not
write it). -/
def Opt.val (o : Opt) (f : Field) : FVal :=
  match o, f with
  | .withMetricExporterEndpoint url, .metricExporterEndpoint => .str url
  | .withTraceExporterEndpoint url, .traceExporterEndpoint => .str url
  | .withServiceName name, .serviceName => .str name
  | .withServiceNamespace nspace, .serviceNamespace => .str nspace
  | .withServiceVersion version, .serviceVersion => .str version
  | .withTraceExporterInsecure insecure, .traceExporterEndpointInsecure => .flag insecure
  | .withMetricExporterInsecure insecure, .metricExporterEndpointInsecure => .flag insecure
  | .withResourceAttributes attributes, .resourceAttributes => .attrs attributes
  | .withResource res, .resource => .res res
  | .withErrorHandler handler, .errorHandler => .handler handler
  | .withMetricReportingPeriod p, .metricReportingPeriod => .str p
  | .withSLSConfig project _ _ _, .project => .str project
  | .withSLSConfig _ instanceID _ _, .instanceID => .str instanceID
  | .withSLSConfig _ _ accessKeyID _, .accessKeyID => .str accessKeyID
  | .withSLSConfig _ _ _ accessKeySecret, .accessKeySecret => .str accessKeySecret
  | .withIDGenerator g, .idGenerator => .idg g
  | _, _ => .str ""

/-- Recognizer for `WithResourceAttributes`. -/
def Opt.isWithResourceAttributes : Opt → Bool
  | .withResourceAttributes _ => true
  | _ => false

/-- Fields untouched by `parseEnvKeys` and `mergeResource`. -/
def Field.isScalar : Field → Bool
  | .resource => false
  | .resourceAttributes => false
  | _ => true

/-- The value written by the last option of the list that writes the
field, if any. -/
def lastWrite (f : Field) : List Opt → Option FVal
  | [] => none
  | o :: rest =>
    match lastWrite f rest with
    | some v => some v
    | none => if o.writes f then some (o.val f) else none

/-- Whether the metric-exporter constructor chosen by `initOtelExporter`
for the given endpoint succeeds in world `w` (its error being discarded by
the source if it fails). -/
def metricCtorOk (c : Config) (w : World) (e : String) (insecure : Bool) : Bool :=
  if e = "stdout" then (w.stdoutmetricNew).isNone
  else if e = "" then false
  else (w.otlpmetricgrpcNew e insecure c.slsHeaders).isNone

/-! ### Concrete inputs for the witnesses -/

/-- A world where every library call succeeds. -/
def wOK : World :=
  { stdouttraceNew := none
    stdoutmetricNew := none
    otlptraceNew := fun _ _ _ => none
    otlpmetricgrpcNew := fun _ _ _ => none
    hostStart := none
    runtimeStart := none
    parseDuration := fun _ => none
    mergeResources := fun a _ => (a, none)
    getenv := fun _ => ""
    hostname := "h"
    pid := 1
    command := "cmd"
    envResource := none }

/-- `wOK` with a failing `stdoutmetric.New`. -/
def wMetricFail : World :=
  { wOK with stdoutmetricNew := some "stdoutmetric construction failed" }

/-- `wOK` with a failing `stdouttrace.New`. -/
def wTraceFail : World :=
  { wOK with stdouttraceNew := some "stdouttrace construction failed" }

/-- `wOK` with the environment variable FOO set to bar. -/
def wFoo : World :=
  { wOK with getenv := fun k => if k = "FOO" then "bar" else "" }

/-- Empty globals. -/
def gEmpty : Globals :=
  { errorHandler := none, tracerProvider := none, meterProvider := none, propagator := none }

/-- A baseline config with both endpoints on stdout. -/
def cBase : Config :=
  { TraceExporterEndpoint := "stdout"
    TraceExporterEndpointInsecure := false
    MetricExporterEndpoint := "stdout"
    MetricExporterEndpointInsecure := false
    MetricReportingPeriod := "30s"
    ServiceName := "svc"
    ServiceNamespace := ""
    ServiceVersion := "v0.1.0"
    Project := ""
    InstanceID := ""
    AccessKeyID := ""
    AccessKeySecret := ""
    AttributesEnvKeys := ""
    IDGenerator := none
    Resource := none
    resourceAttributes := none
    errorHandler := none
    stop := [] }

/-- `cBase` with the trace feature disabled. -/
def cMetricOnly : Config := { cBase with TraceExporterEndpoint := "" }

/-- The config and globals `Start cBase wOK gEmpty` produces. -/
def cAfterStart : Config :=
  { cBase with stop :=
      [StopFn.tracer ⟨.stdout, none, none⟩ (some .stdout),
       StopFn.metric ⟨thirtySecondsNanos, .stdout, none⟩ (some .stdout)] }

def gAfterStart : Globals :=
  { errorHandler := none
    tracerProvider := some ⟨.stdout, none, none⟩
    meterProvider := some ⟨thirtySecondsNanos, .stdout, none⟩
    propagator := some .compositeTraceContextBaggage }

/-- Env-tagged values with an empty service name (so validation fails). -/
def vBase : EnvVals :=
  { TraceExporterEndpoint := "stdout"
    TraceExporterEndpointInsecure := false
    MetricExporterEndpoint := "stdout"
    MetricExporterEndpointInsecure := false
    MetricReportingPeriod := "30s"
    ServiceName := ""
    ServiceNamespace := ""
    ServiceVersion := "v0.1.0"
    Project := ""
    InstanceID := ""
    AccessKeyID := ""
    AccessKeySecret := ""
    AttributesEnvKeys := "" }

/-- `vBase` with attribute env keys configured. -/
def vFoo : EnvVals := { vBase with AttributesEnvKeys := "FOO" }

/-- The config `NewConfig wOK (.ok vBase) []` returns. -/
def cDemo : Config :=
  { mkInitConfig vBase with
      Resource := some (getDefaultResource wOK (mkInitConfig vBase)) }

/-- Two options writing the same field, for the precedence witness. -/
def optsDemo : List Opt := [.withServiceName "a", .withServiceName "b"]

/-- The config `NewConfig wOK (.ok vBase) optsDemo` returns. -/
def cDemo2 : Config :=
  { applyOpts optsDemo (mkInitConfig vBase) with
      Resource := some (getDefaultResource wOK (applyOpts optsDemo (mkInitConfig vBase))) }

/-! ### Helper lemmas -/

theorem get_apply (o : Opt) (f : Field) (c : Config) :
    Field.get f (o.apply c) = if o.writes f = true then o.val f else Field.get f c := by
  cases o <;> cases f <;>
    first
      | (simp [Opt.apply, Opt.writes, Opt.val, Field.get]; done)
      | (rename_i g; cases g <;> simp [Opt.apply, Opt.writes, Opt.val, Field.get])

theorem get_applyOpts (opts : List Opt) (c : Config) (f : Field) :
    Field.get f (applyOpts opts c) = (lastWrite f opts).getD (Field.get f c) := by
  induction opts generalizing c with
  | nil => rfl
  | cons o rest ih =>
    have h1 : applyOpts (o :: rest) c = applyOpts rest (o.apply c) := rfl
    rw [h1, ih]
    simp only [lastWrite]
    cases h : lastWrite f rest with
    | some v => simp
    | none =>
      by_cases hw : o.writes f = true <;> simp [hw, get_apply]

theorem lastWrite_eq_none (f : Field) (opts : List Opt)
    (h : ∀ o ∈ opts, o.writes f = false) : lastWrite f opts = none := by
  induction opts with
  | nil => rfl
  | cons o rest ih =>
    simp only [lastWrite, ih (fun o ho => h o (List.mem_cons_of_mem _ ho))]
    simp [h o (List.mem_cons_self _ _)]

theorem writes_attributesEnvKeys_false (o : Opt) :
    o.writes .attributesEnvKeys = false := by
  cases o <;> rfl

theorem writes_resourceAttributes_false (o : Opt)
    (h : o.isWithResourceAttributes = false) :
    o.writes .resourceAttributes = false := by
  cases o <;> simp_all [Opt.isWithResourceAttributes, Opt.writes]

theorem parseEnvKeysGo_nil_map (getenv : String → String) (ks : List String) (c : Config)
    (hc : c.resourceAttributes = none) (hk : ∃ k ∈ ks, getenv (goTrimSpace k) ≠ "") :
    parseEnvKeysGo getenv ks c = none := by
  induction ks generalizing c with
  | nil => simp at hk
  | cons k rest ih =>
    obtain ⟨k0, hk0, hv⟩ := hk
    simp only [parseEnvKeysGo]
    by_cases h : getenv (goTrimSpace k) = ""
    · simp only [h, if_true]
      rcases List.mem_cons.mp hk0 with h0 | h0
      · subst h0; exact absurd h hv
      · exact ih c hc ⟨k0, h0, hv⟩
    · simp [h, hc]

theorem parseEnvKeysGo_preserves (getenv : String → String) (ks : List String)
    (c c1 : Config) (h : parseEnvKeysGo getenv ks c = some c1) :
    ∃ m, c1 = { c with resourceAttributes := m } := by
  induction ks generalizing c with
  | nil =>
    refine ⟨c.resourceAttributes, ?_⟩
    simp only [parseEnvKeysGo, Option.some.injEq] at h
    rw [← h]
  | cons k rest ih =>
    simp only [parseEnvKeysGo] at h
    by_cases hv : getenv (goTrimSpace k) = ""
    · rw [if_pos hv] at h
      exact ih c h
    · rw [if_neg hv] at h
      cases hm : c.resourceAttributes with
      | none => rw [hm] at h; exact absurd h (by simp)
      | some m =>
        rw [hm] at h
        obtain ⟨m1, hm1⟩ := ih _ h
        exact ⟨m1, hm1⟩

theorem parseEnvKeys_preserves (getenv : String → String) (c c1 : Config)
    (h : parseEnvKeys getenv c = some c1) :
    ∃ m, c1 = { c with resourceAttributes := m } := by
  unfold parseEnvKeys at h
  by_cases h0 : c.AttributesEnvKeys = ""
  · rw [if_pos h0, Option.some.injEq] at h
    exact ⟨c.resourceAttributes, by rw [← h]⟩
  · rw [if_neg h0] at h
    exact parseEnvKeysGo_preserves _ _ _ _ h

theorem mergeResource_preserves (w : World) (c : Config) :
    ∃ r, (mergeResource w c).1 = { c with Resource := r } := by
  unfold mergeResource
  cases h1 : w.mergeResources (some (getDefaultResource w c)) c.Resource with
  | mk r1 e1 =>
    cases e1 with
    | some e => exact ⟨r1, rfl⟩
    | none =>
      dsimp only
      cases h2 : w.mergeResources r1 w.envResource with
      | mk r2 e2 =>
        cases e2 with
        | some e => exact ⟨r2, rfl⟩
        | none =>
          exact ⟨_, rfl⟩

theorem get_update_resource (c : Config) (r : Option Res) (f : Field)
    (hf : f.isScalar = true) :
    Field.get f { c with Resource := r } = Field.get f c := by
  cases f <;> simp_all [Field.get, Field.isScalar]

theorem get_update_attrs (c : Config) (m : Option (List (String × String))) (f : Field)
    (hf : f.isScalar = true) :
    Field.get f { c with resourceAttributes := m } = Field.get f c := by
  cases f <;> simp_all [Field.get, Field.isScalar]

theorem initOtelExporter_ok_trace (c : Config) (w : World) (e : String) (insecure : Bool)
    (t : Option TraceExporter) (m : Option MetricExporter)
    (h : c.initOtelExporter w e insecure = .ok (t, m)) :
    (t.isSome = true ↔ e ≠ "") := by
  unfold Config.initOtelExporter at h
  split_ifs at h with h1 h2
  · subst h1
    cases hA : w.stdouttraceNew <;> rw [hA] at h
    · cases hB : w.stdoutmetricNew <;> rw [hB] at h <;>
        (simp only [Except.ok.injEq, Prod.mk.injEq] at h
         obtain ⟨ht, hm⟩ := h
         subst ht
         simp)
    · simp at h
  · simp only [] at h
    cases hA : w.otlptraceNew e insecure c.slsHeaders <;> rw [hA] at h
    · cases hB : w.otlpmetricgrpcNew e insecure c.slsHeaders <;> rw [hB] at h <;>
        (simp only [Except.ok.injEq, Prod.mk.injEq] at h
         obtain ⟨ht, hm⟩ := h
         subst ht
         simp [h2])
    · simp at h
  · push_neg at h2
    simp only [Except.ok.injEq, Prod.mk.injEq] at h
    obtain ⟨ht, hm⟩ := h
    subst ht
    simp [h2]

theorem initOtelExporter_ok_metric (c : Config) (w : World) (e : String) (insecure : Bool)
    (t : Option TraceExporter) (m : Option MetricExporter)
    (h : c.initOtelExporter w e insecure = .ok (t, m)) :
    (m.isSome = true ↔ (e ≠ "" ∧ metricCtorOk c w e insecure = true)) := by
  unfold Config.initOtelExporter at h
  split_ifs at h with h1 h2
  · subst h1
    cases hA : w.stdouttraceNew <;> rw [hA] at h
    · cases hB : w.stdoutmetricNew <;> rw [hB] at h <;>
        (simp only [Except.ok.injEq, Prod.mk.injEq] at h
         obtain ⟨ht, hm⟩ := h
         subst hm
         simp [metricCtorOk, hB])
    · simp at h
  · simp only [] at h
    cases hA : w.otlptraceNew e insecure c.slsHeaders <;> rw [hA] at h
    · cases hB : w.otlpmetricgrpcNew e insecure c.slsHeaders <;> rw [hB] at h <;>
        (simp only [Except.ok.injEq, Prod.mk.injEq] at h
         obtain ⟨ht, hm⟩ := h
         subst hm
         simp [metricCtorOk, h1, h2, hB])
    · simp at h
  · push_neg at h2
    simp only [Except.ok.injEq, Prod.mk.injEq] at h
    obtain ⟨ht, hm⟩ := h
    subst hm
    simp [metricCtorOk, h2]

/-! ### Claim theorems -/

/-- C1: `Config.IsValid` returns a non-nil error exactly when the service
name is empty, the service version is empty, an SLS endpoint is used with
the corresponding insecure flag set, or an SLS endpoint is used while one
of the four credential fields is empty or contains one of the characters
dollar, open brace, close brace; in every other case it returns nil. -/
theorem isValid_error_iff (c : Config) :
    (c.IsValid).isSome = true ↔
      (c.ServiceName = "" ∨ c.ServiceVersion = "" ∨
       ((strContains c.TraceExporterEndpoint slsEndpointMark = true ∧
           c.TraceExporterEndpointInsecure = true) ∨
        (strContains c.MetricExporterEndpoint slsEndpointMark = true ∧
           c.MetricExporterEndpointInsecure = true)) ∨
       ((strContains c.TraceExporterEndpoint slsEndpointMark = true ∨
           strContains c.MetricExporterEndpoint slsEndpointMark = true) ∧
        (c.Project = "" ∨ c.InstanceID = "" ∨ c.AccessKeyID = "" ∨ c.AccessKeySecret = "" ∨
         strContainsAny c.Project invalidChars = true ∨
         strContainsAny c.InstanceID invalidChars = true ∨
         strContainsAny c.AccessKeyID invalidChars = true ∨
         strContainsAny c.AccessKeySecret invalidChars = true))) := by
  unfold Config.IsValid
  split_ifs with h1 h2 h3 h4 h5 h6 <;> simp_all <;> tauto

/-- C3: `initOtelExporter` branches on the endpoint string alone: the
empty endpoint yields nil trace and metric exporters with a nil error,
"stdout" yields the stdout exporters (when their constructors succeed),
and any other endpoint yields the gRPC OTLP exporters configured with that
endpoint (when their constructors succeed). -/
theorem initOtelExporter_branches (c : Config) (w : World) (e : String) (insecure : Bool) :
    (e = "" → c.initOtelExporter w e insecure = .ok (none, none)) ∧
    (e = "stdout" → w.stdouttraceNew = none → w.stdoutmetricNew = none →
       c.initOtelExporter w e insecure = .ok (some .stdout, some .stdout)) ∧
    (e ≠ "stdout" → e ≠ "" →
       w.otlptraceNew e insecure c.slsHeaders = none →
       w.otlpmetricgrpcNew e insecure c.slsHeaders = none →
       c.initOtelExporter w e insecure =
         .ok (some (.grpc e insecure c.slsHeaders), some (.grpc e insecure c.slsHeaders))) := by
  refine ⟨?_, ?_, ?_⟩
  · intro h; subst h; rfl
  · intro h h1 h2; subst h
    simp [Config.initOtelExporter, h1, h2]
  · intro h h1 h2 h3
    simp [Config.initOtelExporter, h, h1, h2, h3]

/-- C3 witness: the three branches at the endpoints "", "stdout" and
"grpc.example.com" in a world where every constructor succeeds. -/
theorem initOtelExporter_branches_witness :
    cBase.initOtelExporter wOK "" true = .ok (none, none) ∧
    cBase.initOtelExporter wOK "stdout" true = .ok (some .stdout, some .stdout) ∧
    cBase.initOtelExporter wOK "grpc.example.com" true =
      .ok (some (.grpc "grpc.example.com" true cBase.slsHeaders),
           some (.grpc "grpc.example.com" true cBase.slsHeaders)) :=
  ⟨(initOtelExporter_branches cBase wOK "" true).1 rfl,
   (initOtelExporter_branches cBase wOK "stdout" true).2.1 rfl rfl rfl,
   (initOtelExporter_branches cBase wOK "grpc.example.com" true).2.2
     (by decide) (by decide) rfl rfl⟩

/-- C10: for a non-empty, non-stdout endpoint the gRPC exporters carry the
four SLS credential headers exactly when both `Project` and `InstanceID`
are non-empty, and an empty header map otherwise (even when the access-key
fields are set). -/
theorem grpc_exporter_headers (c : Config) (w : World) (e : String) (insecure : Bool)
    (hne : e ≠ "") (hns : e ≠ "stdout")
    (ht : w.otlptraceNew e insecure c.slsHeaders = none)
    (hm : w.otlpmetricgrpcNew e insecure c.slsHeaders = none) :
    c.initOtelExporter w e insecure =
      .ok (some (.grpc e insecure c.slsHeaders), some (.grpc e insecure c.slsHeaders)) ∧
    ((c.Project ≠ "" ∧ c.InstanceID ≠ "") →
       c.slsHeaders =
         [(slsProjectHeader, c.Project),
          (slsInstanceIDHeader, c.InstanceID),
          (slsAccessKeyIDHeader, c.AccessKeyID),
          (slsAccessKeySecretHeader, c.AccessKeySecret)]) ∧
    (¬(c.Project ≠ "" ∧ c.InstanceID ≠ "") → c.slsHeaders = []) := by
  refine ⟨(initOtelExporter_branches c w e insecure).2.2 hns hne ht hm, ?_, ?_⟩
  · intro h; simp [Config.slsHeaders, h]
  · intro h; simp [Config.slsHeaders, h]

/-- C10 witness: with `Project` empty but both access keys set, the gRPC
exporter is built with an empty header map. -/
theorem grpc_exporter_headers_witness :
    ({ cBase with AccessKeyID := "ak", AccessKeySecret := "sk" }).initOtelExporter wOK
        "grpc.example.com" false =
      .ok (some (.grpc "grpc.example.com" false
                   ({ cBase with AccessKeyID := "ak", AccessKeySecret := "sk" }).slsHeaders),
           some (.grpc "grpc.example.com" false
                   ({ cBase with AccessKeyID := "ak", AccessKeySecret := "sk" }).slsHeaders)) ∧
    ({ cBase with AccessKeyID := "ak", AccessKeySecret := "sk" }).slsHeaders = [] :=
  ⟨(grpc_exporter_headers { cBase with AccessKeyID := "ak", AccessKeySecret := "sk" } wOK
      "grpc.example.com" false (by decide) (by decide) rfl rfl).1,
   (grpc_exporter_headers { cBase with AccessKeyID := "ak", AccessKeySecret := "sk" } wOK
      "grpc.example.com" false (by decide) (by decide) rfl rfl).2.2 (by simp [cBase])⟩

/-- C4 (code bug): with the trace feature disabled and the metric endpoint
"stdout", a failing `stdoutmetric.New` does not fail `Start`: the error is
assigned to `err` inside `initOtelExporter` but the function returns a nil
error, so `Start` returns nil, registers no meter provider and appends no
stop callback, instead of returning the constructor error as the claim
(and the previous revision of the file) state. -/
theorem start_swallows_metric_exporter_error :
    Start cMetricOnly wMetricFail gEmpty = (cMetricOnly, gEmpty, none) ∧
    cMetricOnly.MetricExporterEndpoint = "stdout" ∧
    wMetricFail.stdoutmetricNew = some "stdoutmetric construction failed" := by
  decide

/-- C5 counterexample: with both endpoints "stdout" and `stdoutmetric.New`
failing, `Start` succeeds and the metric endpoint is non-empty, yet the
resulting stop list holds no metric callback (the claim requires exactly
one on every successful `Start` with a non-empty metric endpoint). -/
theorem start_metric_callback_missing :
    (Start cBase wMetricFail gEmpty).2.2 = none ∧
    cBase.MetricExporterEndpoint ≠ "" ∧
    ((Start cBase wMetricFail gEmpty).1.stop.countP StopFn.isMetricCallback) = 0 := by
  decide

/-- C5 amended: on a successful `Start` whose two `initOtelExporter` calls
returned `(t1, m1)` and `(t2, m2)`, the stop list is extended by exactly
one tracer callback when the trace endpoint is non-empty (`t1` is non-nil
exactly then), followed by exactly one metric callback when the metric
endpoint is non-empty AND its metric-exporter constructor succeeded (`m2`
is non-nil exactly then; its error is otherwise swallowed), and `Shutdown`
invokes the callbacks of `c.stop` once each, in registration order. -/
theorem start_stop_machine (c : Config) (w : World) (g : Globals) (c1 : Config)
    (g1 : Globals) (t1 : Option TraceExporter) (m1 : Option MetricExporter)
    (t2 : Option TraceExporter) (m2 : Option MetricExporter)
    (h1 : c.initOtelExporter w c.TraceExporterEndpoint c.TraceExporterEndpointInsecure
        = .ok (t1, m1))
    (h2 : c.initOtelExporter w c.MetricExporterEndpoint c.MetricExporterEndpointInsecure
        = .ok (t2, m2))
    (hs : Start c w g = (c1, g1, none)) :
    (t1.isSome = true ↔ c.TraceExporterEndpoint ≠ "") ∧
    (m2.isSome = true ↔ (c.MetricExporterEndpoint ≠ "" ∧
        metricCtorOk c w c.MetricExporterEndpoint c.MetricExporterEndpointInsecure = true)) ∧
    c1.stop = c.stop
      ++ (match t1 with
          | some texp => [StopFn.tracer ⟨texp, c.IDGenerator, c.Resource⟩ t1]
          | none => [])
      ++ (match m2 with
          | some mexp =>
              [StopFn.metric
                ⟨(w.parseDuration c.MetricReportingPeriod).getD thirtySecondsNanos,
                 mexp, c.Resource⟩ t2]
          | none => []) ∧
    Shutdown c1 = c1.stop := by
  refine ⟨initOtelExporter_ok_trace _ _ _ _ _ _ h1,
          initOtelExporter_ok_metric _ _ _ _ _ _ h2, ?_, rfl⟩
  unfold Start at hs
  rw [h1, h2] at hs
  cases t1 with
  | none =>
    cases m2 with
    | none =>
      simp only [Config.initTracer, Config.initMetric, Prod.mk.injEq] at hs
      obtain ⟨hc, -, -⟩ := hs
      subst hc
      simp
    | some mexp =>
      simp only [Config.initTracer, Config.initMetric] at hs
      cases hH : w.hostStart with
      | some e => rw [hH] at hs; simp at hs
      | none =>
        rw [hH] at hs
        simp only [Prod.mk.injEq] at hs
        obtain ⟨hc, -, -⟩ := hs
        subst hc
        simp
  | some texp =>
    cases m2 with
    | none =>
      simp only [Config.initTracer, Config.initMetric, Prod.mk.injEq] at hs
      obtain ⟨hc, -, -⟩ := hs
      subst hc
      simp
    | some mexp =>
      simp only [Config.initTracer, Config.initMetric] at hs
      cases hH : w.hostStart with
      | some e => rw [hH] at hs; simp at hs
      | none =>
        rw [hH] at hs
        simp only [Prod.mk.injEq] at hs
        obtain ⟨hc, -, -⟩ := hs
        subst hc
        simp

/-- C5 amended witness: the concrete run `Start cBase wOK gEmpty`, which
appends the tracer callback and then the metric callback. -/
theorem start_stop_machine_witness :
    ((some TraceExporter.stdout : Option TraceExporter).isSome = true ↔
        cBase.TraceExporterEndpoint ≠ "") ∧
    ((some MetricExporter.stdout : Option MetricExporter).isSome = true ↔
        (cBase.MetricExporterEndpoint ≠ "" ∧
         metricCtorOk cBase wOK cBase.MetricExporterEndpoint
           cBase.MetricExporterEndpointInsecure = true)) ∧
    cAfterStart.stop = cBase.stop
      ++ (match (some TraceExporter.stdout : Option TraceExporter) with
          | some texp => [StopFn.tracer ⟨texp, cBase.IDGenerator, cBase.Resource⟩
                            (some TraceExporter.stdout)]
          | none => [])
      ++ (match (some MetricExporter.stdout : Option MetricExporter) with
          | some mexp =>
              [StopFn.metric
                ⟨(wOK.parseDuration cBase.MetricReportingPeriod).getD thirtySecondsNanos,
                 mexp, cBase.Resource⟩ (some TraceExporter.stdout)]
          | none => []) ∧
    Shutdown cAfterStart = cAfterStart.stop :=
  start_stop_machine cBase wOK gEmpty cAfterStart gAfterStart
    (some .stdout) (some .stdout) (some .stdout) (some .stdout)
    rfl rfl (by decide)

/-- C7: if either of the two `initOtelExporter` invocations inside `Start`
returns an error, `Start` returns that error with the config unchanged, so
no stop callback is registered and a subsequent `Shutdown` invokes nothing
added by the failed `Start`. -/
theorem start_exporter_error_no_callbacks (c : Config) (w : World) (g : Globals) (e : GoErr)
    (h : c.initOtelExporter w c.TraceExporterEndpoint c.TraceExporterEndpointInsecure
          = .error e ∨
         ((∃ t m, c.initOtelExporter w c.TraceExporterEndpoint c.TraceExporterEndpointInsecure
             = .ok (t, m)) ∧
          c.initOtelExporter w c.MetricExporterEndpoint c.MetricExporterEndpointInsecure
            = .error e)) :
    Start c w g = (c, setErrorHandlerStep c g, some e) ∧
    (Start c w g).1.stop = c.stop ∧
    Shutdown (Start c w g).1 = Shutdown c := by
  obtain h | ⟨⟨t, m, h1⟩, h2⟩ := h
  · unfold Start
    rw [h]
    exact ⟨rfl, rfl, rfl⟩
  · unfold Start
    rw [h1, h2]
    exact ⟨rfl, rfl, rfl⟩

/-- C7 witness: a failing `stdouttrace.New` on the trace endpoint. -/
theorem start_exporter_error_no_callbacks_witness :
    Start cBase wTraceFail gEmpty =
      (cBase, setErrorHandlerStep cBase gEmpty, some "stdouttrace construction failed") ∧
    (Start cBase wTraceFail gEmpty).1.stop = cBase.stop ∧
    Shutdown (Start cBase wTraceFail gEmpty).1 = Shutdown cBase :=
  start_exporter_error_no_callbacks cBase wTraceFail gEmpty
    "stdouttrace construction failed" (.inl rfl)

/-- C6: `Start` registers the global singletons: the globals' error handler
always equals the result of the error-handler registration step, which runs
before any exporter construction (so it is in place even when construction
fails); and on a successful `Start` with a non-empty trace endpoint the
global tracer provider is the provider built from the trace exporter of
`c`'s trace endpoint together with `c.IDGenerator` and `c.Resource`, and
the global text-map propagator is the composite of TraceContext and
Baggage. -/
theorem start_registers_globals (c : Config) (w : World) (g : Globals) :
    ((Start c w g).2.1).errorHandler = (setErrorHandlerStep c g).errorHandler ∧
    (∀ c1 g1, Start c w g = (c1, g1, none) → c.TraceExporterEndpoint ≠ "" →
      (∃ texp m1,
         c.initOtelExporter w c.TraceExporterEndpoint c.TraceExporterEndpointInsecure
           = .ok (some texp, m1) ∧
         g1.tracerProvider = some ⟨texp, c.IDGenerator, c.Resource⟩) ∧
      g1.propagator = some Propagator.compositeTraceContextBaggage) := by
  constructor
  · unfold Start
    cases hA : c.initOtelExporter w c.TraceExporterEndpoint c.TraceExporterEndpointInsecure with
    | error e => rfl
    | ok p1 =>
      obtain ⟨t1, m1⟩ := p1
      cases hB : c.initOtelExporter w c.MetricExporterEndpoint
          c.MetricExporterEndpointInsecure with
      | error e => rfl
      | ok p2 =>
        obtain ⟨t2, m2⟩ := p2
        cases t1 <;> cases m2 <;>
          simp only [Config.initTracer, Config.initMetric] <;>
          first
            | rfl
            | (cases hH : w.hostStart <;> simp [hH])
  · intro c1 g1 hs hne
    cases hA : c.initOtelExporter w c.TraceExporterEndpoint c.TraceExporterEndpointInsecure with
    | error e => unfold Start at hs; rw [hA] at hs; simp at hs
    | ok p1 =>
      obtain ⟨t1, m1⟩ := p1
      have ht1 : t1.isSome = true := (initOtelExporter_ok_trace _ _ _ _ _ _ hA).mpr hne
      cases t1 with
      | none => simp at ht1
      | some texp =>
        unfold Start at hs
        rw [hA] at hs
        cases hB : c.initOtelExporter w c.MetricExporterEndpoint
            c.MetricExporterEndpointInsecure with
        | error e => rw [hB] at hs; simp at hs
        | ok p2 =>
          obtain ⟨t2, m2⟩ := p2
          rw [hB] at hs
          refine ⟨⟨texp, m1, rfl, ?_⟩, ?_⟩ <;>
          · cases m2 with
            | none =>
              simp only [Config.initTracer, Config.initMetric, Prod.mk.injEq] at hs
              obtain ⟨-, hg, -⟩ := hs
              subst hg
              rfl
            | some mexp =>
              simp only [Config.initTracer, Config.initMetric] at hs
              cases hH : w.hostStart with
              | some e2 => rw [hH] at hs; simp at hs
              | none =>
                rw [hH] at hs
                simp only [Prod.mk.injEq] at hs
                obtain ⟨-, hg, -⟩ := hs
                subst hg
                rfl

/-- C6 witness: the concrete run `Start cBase wOK gEmpty`. -/
theorem start_registers_globals_witness :
    (∃ texp m1,
       cBase.initOtelExporter wOK cBase.TraceExporterEndpoint
           cBase.TraceExporterEndpointInsecure
         = .ok (some texp, m1) ∧
       gAfterStart.tracerProvider = some ⟨texp, cBase.IDGenerator, cBase.Resource⟩) ∧
    gAfterStart.propagator = some Propagator.compositeTraceContextBaggage :=
  (start_registers_globals cBase wOK gEmpty).2 cAfterStart gAfterStart
    (by decide) (by decide)

/-- C2: `NewConfig` loads the environment values first and then applies
the options in the order given: on environment failure it returns the nil
config and that error whatever the options are; option application is
last-writer-wins on every field, overriding the environment value and any
earlier option; and every field untouched by the later `parseEnvKeys` and
`mergeResource` stages reaches the returned config with that value. -/
theorem newConfig_env_then_options (w : World) :
    (∀ e opts, NewConfig w (.error e) opts = .returned none (some e)) ∧
    (∀ (opts : List Opt) (c : Config) (f : Field),
       Field.get f (applyOpts opts c) = (lastWrite f opts).getD (Field.get f c)) ∧
    (∀ v opts cfg err, NewConfig w (.ok v) opts = .returned cfg err →
       ∀ c, cfg = some c → ∀ f, f.isScalar = true →
         Field.get f c = (lastWrite f opts).getD (Field.get f (mkInitConfig v))) := by
  refine ⟨fun e opts => rfl, get_applyOpts, ?_⟩
  intro v opts cfg err h c hc f hf
  simp only [NewConfig] at h
  cases hp : parseEnvKeys w.getenv (applyOpts opts (mkInitConfig v)) with
  | none => rw [hp] at h; simp at h
  | some c1 =>
    rw [hp] at h
    simp only [NCResult.returned.injEq] at h
    obtain ⟨hcfg, -⟩ := h
    rw [hc] at hcfg
    have hc2 : (mergeResource w c1).1 = c := Option.some.inj hcfg
    obtain ⟨m, hm⟩ := parseEnvKeys_preserves _ _ _ hp
    obtain ⟨r, hr⟩ := mergeResource_preserves w c1
    calc Field.get f c
        = Field.get f (mergeResource w c1).1 := by rw [hc2]
      _ = Field.get f c1 := by rw [hr]; exact get_update_resource _ _ _ hf
      _ = Field.get f (applyOpts opts (mkInitConfig v)) := by
            rw [hm]; exact get_update_attrs _ _ _ hf
      _ = (lastWrite f opts).getD (Field.get f (mkInitConfig v)) := get_applyOpts _ _ _

/-- C2 witness: two options writing the service name; the value of the
second one reaches the returned config. -/
theorem newConfig_env_then_options_witness :
    Field.get .serviceName cDemo2 =
      (lastWrite .serviceName optsDemo).getD (Field.get .serviceName (mkInitConfig vBase)) :=
  (newConfig_env_then_options wOK).2.2 vBase optsDemo (some cDemo2) cDemo2.IsValid
    (by decide) cDemo2 rfl .serviceName (by decide)

/-- C8: when `WithResourceAttributes` is not among the options (so the
resourceAttributes map stays nil), `AttributesEnvKeys` is non-empty and at
least one of its pipe-separated keys names an environment variable with a
non-empty value, `NewConfig` panics on the nil-map write inside
`parseEnvKeys` instead of returning an error. -/
theorem newConfig_nil_map_panic (w : World) (v : EnvVals) (opts : List Opt)
    (hopts : ∀ o ∈ opts, o.isWithResourceAttributes = false)
    (hne : v.AttributesEnvKeys ≠ "")
    (hkey : ∃ k ∈ goSplitPipe v.AttributesEnvKeys, w.getenv (goTrimSpace k) ≠ "") :
    NewConfig w (.ok v) opts = .panicked := by
  have hattrs : (applyOpts opts (mkInitConfig v)).resourceAttributes = none := by
    have h := get_applyOpts opts (mkInitConfig v) .resourceAttributes
    rw [lastWrite_eq_none _ _
      (fun o ho => writes_resourceAttributes_false o (hopts o ho))] at h
    simpa [Field.get, mkInitConfig] using h
  have hkeys : (applyOpts opts (mkInitConfig v)).AttributesEnvKeys = v.AttributesEnvKeys := by
    have h := get_applyOpts opts (mkInitConfig v) .attributesEnvKeys
    rw [lastWrite_eq_none _ _ (fun o _ => writes_attributesEnvKeys_false o)] at h
    simpa [Field.get, mkInitConfig] using h
  have hpek : parseEnvKeys w.getenv (applyOpts opts (mkInitConfig v)) = none := by
    unfold parseEnvKeys
    rw [hkeys, if_neg hne]
    exact parseEnvKeysGo_nil_map _ _ _ hattrs hkey
  simp only [NewConfig]
  rw [hpek]

/-- C8 witness: no options, `AttributesEnvKeys` set to FOO, and FOO bound
to bar in the environment. -/
theorem newConfig_nil_map_panic_witness :
    NewConfig wFoo (.ok vFoo) [] = .panicked :=
  newConfig_nil_map_panic wFoo vFoo [] (by simp) (by decide)
    ⟨"FOO", by decide, by decide⟩

/-- C9: `NewConfig` returns a nil config exactly on environment-processing
failure; when environment processing succeeds, every return carries the
merged non-nil config together with exactly that config's validation
error, so a validation failure still hands the caller the config. -/
theorem newConfig_returns_merged_config (w : World) (envResult : Except GoErr EnvVals)
    (opts : List Opt) :
    (∀ e, envResult = .error e → NewConfig w envResult opts = .returned none (some e)) ∧
    (∀ v, envResult = .ok v → ∀ cfg err, NewConfig w envResult opts = .returned cfg err →
       ∃ c, cfg = some c ∧ err = c.IsValid) := by
  constructor
  · intro e he; subst he; rfl
  · intro v hv cfg err h
    subst hv
    simp only [NewConfig] at h
    cases hp : parseEnvKeys w.getenv (applyOpts opts (mkInitConfig v)) with
    | none => rw [hp] at h; simp at h
    | some c1 =>
      rw [hp] at h
      simp only [NCResult.returned.injEq] at h
      obtain ⟨hcfg, herr⟩ := h
      exact ⟨(mergeResource w c1).1, hcfg.symm, herr.symm⟩

/-- C9 witness: with an empty service name from the environment, the
returned config is non-nil and the error is its validation error. -/
theorem newConfig_returns_merged_config_witness :
    ∃ c, (some cDemo : Option Config) = some c ∧
      (some "empty service name" : Option GoErr) = c.IsValid :=
  (newConfig_returns_merged_config wOK (.ok vBase) []).2 vBase rfl (some cDemo)
    (some "empty service name") (by decide)

end SlsProvider
